import Mathlib

/-!
Verification of the react-simple-auth authentication service against its
specification.  The development shallowly embeds the two source files
(src/react-simple-auth.ts and the unnamed promise helper) as pure Lean
functions: storage is an explicit key-value map, promise outcomes and
thrown errors are sum types, and the cooperative poll-plus-message flow of
acquireTokenAsync is a fold over an explicit event trace.
-/

/-- Session record.  Modelled from the spec: the source keeps the session
polymorphic (a type parameter T produced by the Provider), so the field
layout comes from the specification's data model: nullable code,
accessToken and refreshToken strings, numeric expiresIn and createdAt. -/
structure Session where
  code : Option String
  accessToken : Option String
  refreshToken : Option String
  expiresIn : Nat
  createdAt : Nat
deriving DecidableEq

/-- The fixed storage key for the cached session (line 1 of the source). -/
def sessionKey : String := "session"

/-- Correlation key built from a guid, mirroring
`react-simple-auth-request-key-dollar-guid` on line 37 of the source. -/
def requestKeyOf (g : String) : String := "react-simple-auth-request-key-" ++ g

/-- Storage adapter state: a key-value map, as in the Storage interface
(getItem returning null is `none`). -/
def Store := String → Option String

/-- Storage.setItem. -/
def setItem (st : Store) (k v : String) : Store :=
  fun k2 => if k2 = k then some v else st k2

/-- Storage.removeItem. -/
def removeItem (st : Store) (k : String) : Store :=
  fun k2 => if k2 = k then none else st k2

/-- The empty store. -/
def emptyStore : Store := fun _ => none

/-- Errors thrown synchronously by the service (JavaScript exceptions):
the explicit no-session Error thrown by getAccessToken, and the
SyntaxError thrown by JSON.parse on unparseable text. -/
inductive JsError where
  | noSession (resourceId : String)
  | jsonParse
deriving DecidableEq

/- ----------------------------------------------------------------------
JSON codec model.  Serialization of the Session record is out of scope for
the source (JSON.stringify / JSON.parse); we model it with a concrete
separator-based record codec: five fields joined by a bar, option fields
encoded with a plus or minus marker, numbers in decimal.  Text that does
not conform fails to parse, standing in for a JSON SyntaxError.
---------------------------------------------------------------------- -/

/-- Split a character list on a separator character. -/
def splitOnChar (sep : Char) : List Char → List (List Char)
  | [] => [[]]
  | c :: cs =>
    let r := splitOnChar sep cs
    if c = sep then [] :: r
    else
      match r with
      | [] => [[c]]
      | g :: gs => (c :: g) :: gs

/-- Decimal digits of a Nat (fuel-driven so that it reduces structurally). -/
def natToDigitsAux : Nat → Nat → List Char → List Char
  | 0, _, acc => acc
  | fuel + 1, n, acc =>
    if n = 0 then acc
    else natToDigitsAux fuel (n / 10) (Char.ofNat (48 + n % 10) :: acc)

/-- Decimal rendering of a Nat. -/
def natToDigits (n : Nat) : List Char :=
  if n = 0 then ['0'] else natToDigitsAux (n + 1) n []

/-- Parse decimal digits back into a Nat. -/
def digitsToNatAux : List Char → Nat → Option Nat
  | [], acc => some acc
  | c :: cs, acc =>
    if 48 ≤ c.toNat ∧ c.toNat ≤ 57 then digitsToNatAux cs (acc * 10 + (c.toNat - 48))
    else none

/-- Parse a non-empty decimal digit string. -/
def digitsToNat : List Char → Option Nat
  | [] => none
  | cs => digitsToNatAux cs 0

/-- Encode a nullable string field. -/
def encOptStr : Option String → List Char
  | none => ['-']
  | some s => '+' :: s.data

/-- Decode a nullable string field. -/
def decOptStr : List Char → Option (Option String)
  | ['-'] => some none
  | '+' :: cs => some (some (String.mk cs))
  | _ => none

/-- Model of JSON.stringify on a Session. -/
def serializeSession (s : Session) : String :=
  String.mk (encOptStr s.code ++ '|' :: encOptStr s.accessToken ++
    '|' :: encOptStr s.refreshToken ++ '|' :: natToDigits s.expiresIn ++
    '|' :: natToDigits s.createdAt)

/-- Model of JSON.parse into a Session; `none` is a JSON SyntaxError. -/
def parseSession (s : String) : Option Session :=
  match splitOnChar '|' s.data with
  | [f1, f2, f3, f4, f5] =>
    match decOptStr f1, decOptStr f2, decOptStr f3, digitsToNat f4, digitsToNat f5 with
    | some c, some a, some r, some e, some t =>
      some { code := c, accessToken := a, refreshToken := r, expiresIn := e, createdAt := t }
    | _, _, _, _, _ => none
  | _ => none

/-- Provider capability record, mirroring the IProvider interface of the
source (lines 3-17).  Errors extracted from a redirect url are modelled as
strings. -/
structure Provider where
  getOrigin : Option String
  buildAuthorizeUrl : String
  extractError : String → Option String
  extractSession : String → Session
  validateSession : Session → Bool
  getAccessToken : Session → String → String
  getSignOutUrl : String → String

/- ----------------------------------------------------------------------
restoreSession (source lines 132-146).  Reads the fixed session key; an
absent or empty value yields no session; JSON.parse failure propagates as
a thrown error (the source has no try-catch); a deserialized session is
returned only when validateSession accepts it, otherwise the entry is
removed and no session is returned.
---------------------------------------------------------------------- -/

/-- Shallow embedding of service.restoreSession: result value (Except for
a thrown exception) together with the storage state after the call. -/
def restoreSession (provider : Provider) (st : Store) :
    Except JsError (Option Session) × Store :=
  match st sessionKey with
  | none => (.ok none, st)
  | some s =>
    if s = "" then (.ok none, st)
    else
      match parseSession s with
      | none => (.error .jsonParse, st)
      | some session =>
        if provider.validateSession session then (.ok (some session), st)
        else (.ok none, removeItem st sessionKey)

/-- Shallow embedding of service.invalidateSession (source lines 148-150). -/
def invalidateSession (st : Store) : Store := removeItem st sessionKey

/-- Shallow embedding of service.getAccessToken (source lines 152-167):
throws the no-session error when the stored value is absent or empty,
propagates the JSON.parse error on unparseable text, and otherwise returns
the Provider-derived token. -/
def getAccessToken (provider : Provider) (resourceId : String) (st : Store) :
    Except JsError String :=
  match st sessionKey with
  | none => .error (.noSession resourceId)
  | some s =>
    if s = "" then .error (.noSession resourceId)
    else
      match parseSession s with
      | none => .error .jsonParse
      | some session => .ok (provider.getAccessToken session resourceId)

/- ----------------------------------------------------------------------
acquireTokenAsync (source lines 30-130).  The message listener is the
callback of lines 55-84; the promise body is the checkWindow polling
closure of lines 87-129.  We model one acquisition attempt as a fold over
an explicit trace of events (message deliveries and poll ticks), each
event carrying the popup's closed flag at the moment it fires, which is
exactly the information the code consults.
---------------------------------------------------------------------- -/

/-- The source window of a message event: whether it is its own top-level
self (the code compares eventSource.self against eventSource by
reference), and its declared window name. -/
structure SourceWindow where
  isSelf : Bool
  name : String
deriving DecidableEq

/-- A message event as consulted by the callback: origin, optional source
window, and string payload. -/
structure MessageEvent where
  origin : String
  source : Option SourceWindow
  data : String
deriving DecidableEq

/-- What one invocation of the message callback does: drop the message
keeping the listener, drop it and detach the listener (the popup-closed
guard of lines 73-76), or relay it — store the payload under the request
key, post the fixed acknowledgment back to the given origin, and detach
the listener (lines 78-82). -/
inductive CallbackAction where
  | drop
  | dropDetach
  | relay (payload : String) (ackOrigin : String)
deriving DecidableEq

/-- The origin guard of line 58: JavaScript tests `origin and
event.origin not equal to origin`, so a declared empty-string origin is
falsy and the guard is skipped. -/
def originMismatch : Option String → String → Bool
  | none, _ => false
  | some o, evOrigin => decide (o ≠ "") && decide (evOrigin ≠ o)

/-- Shallow embedding of the message callback (source lines 55-84),
parameterised by the Provider's declared origin, this attempt's request
key, and whether the login popup is closed at the moment the callback
runs. -/
def messageCallback (origin : Option String) (requestKey : String)
    (popupClosed : Bool) (event : MessageEvent) : CallbackAction :=
  if originMismatch origin event.origin then .drop
  else
    match event.source with
    | none => .drop
    | some src =>
      if src.isSelf = false then .drop
      else if src.name ≠ requestKey then .drop
      else if popupClosed then .dropDetach
      else .relay event.data event.origin

/-- Outcome of one acquisition attempt, the ways the promise of lines
87-129 settles: resolve with the extracted session; reject with the bare
boolean false when the popup was blocked (line 91); reject with the
Error whose message says the login window was closed by the user or
authentication was incomplete (lines 107-111); reject with the error the
Provider extracted from the redirect url (line 118). -/
inductive Outcome where
  | resolved (session : Session)
  | rejectedBlocked
  | rejectedClosedIncomplete (productName : String)
  | rejectedProviderError (e : String)
deriving DecidableEq

/-- State of one in-flight attempt: the storage, whether the message
listener is still attached, and the settled outcome if any. -/
structure RunState where
  store : Store
  listener : Bool
  outcome : Option Outcome

/-- One event observable by an attempt: a message delivery or a poll
tick, each carrying the popup's closed flag at that moment. -/
inductive Ev where
  | msg (e : MessageEvent) (popupClosed : Bool)
  | tick (popupClosed : Bool)
deriving DecidableEq

/-- The closed flag an event carries. -/
def evClosed : Ev → Bool
  | .msg _ c => c
  | .tick c => c

/-- The closed-popup branch of checkWindow (source lines 102-125): read
and delete the correlation slot, then classify — absent or empty rejects
as closed-incomplete, a Provider-extracted error rejects with it, and
otherwise the extracted session is persisted under the session key and
the promise resolves with it. -/
def onClosed (provider : Provider) (productName requestKey : String)
    (st : Store) : Store × Outcome :=
  let redirectUrl := st requestKey
  let st1 := removeItem st requestKey
  match redirectUrl with
  | none => (st1, .rejectedClosedIncomplete productName)
  | some r =>
    if r = "" then (st1, .rejectedClosedIncomplete productName)
    else
      match provider.extractError r with
      | some e => (st1, .rejectedProviderError e)
      | none =>
        let session := provider.extractSession r
        (setItem st1 sessionKey (serializeSession session), .resolved session)

/-- Process one event against an attempt's state.  A message runs the
callback when the listener is attached (source line 85 arms it, lines 74
and 82 detach it).  A tick runs checkWindow when the promise is still
pending: an open popup just reschedules (line 98), a closed popup runs
the closed branch. -/
def stepEv (provider : Provider) (productName requestKey : String)
    (rs : RunState) (ev : Ev) : RunState :=
  match ev with
  | .msg e closed =>
    if rs.listener then
      match messageCallback provider.getOrigin requestKey closed e with
      | .drop => rs
      | .dropDetach => { rs with listener := false }
      | .relay payload _ => { rs with store := setItem rs.store requestKey payload, listener := false }
    else rs
  | .tick closed =>
    match rs.outcome with
    | some _ => rs
    | none =>
      if closed then
        let p := onClosed provider productName requestKey rs.store
        { rs with store := p.1, outcome := some p.2 }
      else rs

/-- Fold an event trace through an attempt. -/
def runEvents (provider : Provider) (productName requestKey : String)
    (events : List Ev) (rs : RunState) : RunState :=
  events.foldl (stepEv provider productName requestKey) rs

/-- Shallow embedding of one acquireTokenAsync attempt.  `popupOpens`
says whether localWindow.open returned a handle: when it did not, the
listener is never armed (line 53) and the first checkWindow call rejects
with the bare false immediately (lines 90-93) without scheduling any
poll; otherwise the listener is armed and the trace of messages and poll
ticks is processed. -/
def runAttempt (provider : Provider) (productName requestKey : String)
    (popupOpens : Bool) (events : List Ev) (st : Store) : RunState :=
  if popupOpens then
    runEvents provider productName requestKey events
      { store := st, listener := true, outcome := none }
  else
    { store := st, listener := false, outcome := some .rejectedBlocked }

/- ----------------------------------------------------------------------
The promise helper `to` (the unnamed second source file): wraps a promise
so that it always fulfills, with a null-error pair on success and a
one-element error array on rejection.
---------------------------------------------------------------------- -/

/-- A settled promise: fulfilled with a value or rejected with a reason. -/
inductive PResult (ε α : Type) where
  | fulfilled (a : α)
  | rejected (e : ε)
deriving DecidableEq

/-- The array `to` fulfills with: okPair models the two-element array of
null and the data, errPair models the one-element array holding the
rejection reason. -/
inductive ToPair (ε α : Type) where
  | okPair (a : α)
  | errPair (e : ε)
deriving DecidableEq

/-- Shallow embedding of the helper named `to` in the source (`to` is a
reserved token in Lean, hence the name toHelper): then-branch wraps the
value, catch-branch wraps the reason, and both branches fulfill. -/
def toHelper {ε α : Type} (p : PResult ε α) : PResult ε (ToPair ε α) :=
  match p with
  | .fulfilled d => .fulfilled (.okPair d)
  | .rejected e => .fulfilled (.errPair e)

/- ----------------------------------------------------------------------
Claim theorems.
---------------------------------------------------------------------- -/

/-- C10: the helper to(promise) never rejects — it resolves with the
null-and-data pair when the promise fulfills and resolves (not rejects)
with the singleton error array when the promise rejects. -/
theorem C10_to_never_rejects :
    ∀ (α ε : Type) (d : α) (e : ε) (p : PResult ε α),
      toHelper (PResult.fulfilled d : PResult ε α) = .fulfilled (.okPair d) ∧
      toHelper (PResult.rejected e : PResult ε α) = .fulfilled (.errPair e) ∧
      ∃ q, toHelper p = .fulfilled q :=
  fun _ _ _ _ p =>
    ⟨rfl, rfl, by cases p <;> exact ⟨_, rfl⟩⟩

/-- C3: when localWindow.open returns null (popup blocked), the attempt
rejects immediately with the popup-blocked rejection — the reason the
code reserves for a blocked popup, distinct from every other way the
promise can settle — the listener is never armed, storage is untouched,
and no poll tick or message is ever processed (the outcome and final
state are the same for every event trace). -/
theorem C3_popup_blocked_rejects_immediately :
    ∀ (provider : Provider) (productName requestKey : String)
      (events : List Ev) (st : Store),
      runAttempt provider productName requestKey false events st =
        { store := st, listener := false, outcome := some .rejectedBlocked } ∧
      (∀ s, Outcome.rejectedBlocked ≠ .resolved s) ∧
      (∀ n, Outcome.rejectedBlocked ≠ .rejectedClosedIncomplete n) ∧
      (∀ e, Outcome.rejectedBlocked ≠ .rejectedProviderError e) :=
  fun _ _ _ _ _ =>
    ⟨rfl, fun _ h => Outcome.noConfusion h, fun _ h => Outcome.noConfusion h,
     fun _ h => Outcome.noConfusion h⟩

/-- Provider for the C3 popup-blocked scenario. -/
def c3Provider : Provider where
  getOrigin := none
  buildAuthorizeUrl := "https://auth.example/authorize"
  extractError := fun _ => none
  extractSession := fun _ =>
    { code := none, accessToken := none, refreshToken := none, expiresIn := 0, createdAt := 0 }
  validateSession := fun _ => true
  getAccessToken := fun _ _ => ""
  getSignOutUrl := fun u => u

/-- Witness for C3: a concrete blocked-popup attempt rejects at once with
the popup-blocked reason and processes none of the pending events. -/
theorem C3_popup_blocked_rejects_immediately_witness :
    runAttempt c3Provider "prod" (requestKeyOf "g") false [Ev.tick true]
      emptyStore =
      { store := emptyStore, listener := false,
        outcome := some .rejectedBlocked } :=
  (C3_popup_blocked_rejects_immediately c3Provider "prod" (requestKeyOf "g")
    [Ev.tick true] emptyStore).1

/-- Provider used for the concrete restoreSession parse-failure scenario. -/
def c4Provider : Provider where
  getOrigin := none
  buildAuthorizeUrl := "https://auth.example/authorize"
  extractError := fun _ => none
  extractSession := fun _ =>
    { code := none, accessToken := none, refreshToken := none, expiresIn := 0, createdAt := 0 }
  validateSession := fun _ => true
  getAccessToken := fun _ _ => ""
  getSignOutUrl := fun u => u

/-- Store whose session slot holds unparseable text. -/
def c4Store : Store := setItem emptyStore sessionKey "garbage"

/-- C4 counterexample: with unparseable text in the session slot,
restoreSession does not return absent and does not remove the entry — it
propagates the deserialization error and the corrupt value is still
there afterward. -/
theorem C4_counterexample :
    (restoreSession c4Provider c4Store).1 = .error .jsonParse ∧
    (restoreSession c4Provider c4Store).2 sessionKey = some "garbage" :=
  ⟨rfl, rfl⟩

/-- C4 (amended): for every storage state whose session-slot value is
present, non-empty and not parseable as a serialized Session,
restoreSession throws the JSON parse error (the source has no try-catch
around JSON.parse) and leaves the storage, including the corrupt entry,
unchanged. -/
theorem C4_parse_error_propagates :
    ∀ (provider : Provider) (st : Store) (s : String),
      st sessionKey = some s → s ≠ "" → parseSession s = none →
      restoreSession provider st = (.error .jsonParse, st) := by
  intro provider st s h1 h2 h3
  simp [restoreSession, h1, h2, h3]

/-- Witness for C4: the amended theorem applied to the concrete corrupt
store. -/
theorem C4_parse_error_propagates_witness :
    restoreSession c4Provider c4Store = (.error .jsonParse, c4Store) :=
  C4_parse_error_propagates c4Provider c4Store "garbage" rfl (by decide) (by decide)

/-- A concrete session whose serialized form is used in the
restoreSession validity scenario. -/
def c5Session : Session :=
  { code := none, accessToken := some "abc", refreshToken := none,
    expiresIn := 5, createdAt := 7 }

/-- Provider whose validateSession rejects everything. -/
def c5Provider : Provider where
  getOrigin := none
  buildAuthorizeUrl := "https://auth.example/authorize"
  extractError := fun _ => none
  extractSession := fun _ => c5Session
  validateSession := fun _ => false
  getAccessToken := fun _ _ => ""
  getSignOutUrl := fun u => u

/-- Store whose session slot holds the serialization of c5Session. -/
def c5Store : Store := setItem emptyStore sessionKey "-|+abc|-|5|7"

/-- C5 counterexample: a stored session that deserializes fine is not
returned when validateSession rejects it — restoreSession returns no
session and removes the entry, so it does decide validity itself. -/
theorem C5_counterexample :
    parseSession "-|+abc|-|5|7" = some c5Session ∧
    (restoreSession c5Provider c5Store).1 = .ok none ∧
    (restoreSession c5Provider c5Store).2 sessionKey = none :=
  ⟨by decide, rfl, rfl⟩

/-- C5 (amended): restoreSession does consult Provider.validateSession —
a stored session that deserializes is returned with the storage
unchanged exactly when validateSession accepts it; when validateSession
rejects it, restoreSession removes the entry and returns no session. -/
theorem C5_validity_gated_restore :
    ∀ (provider : Provider) (st : Store) (s : String) (sess : Session),
      st sessionKey = some s → s ≠ "" → parseSession s = some sess →
      restoreSession provider st =
        (if provider.validateSession sess then (.ok (some sess), st)
         else (.ok none, removeItem st sessionKey)) := by
  intro provider st s sess h1 h2 h3
  simp [restoreSession, h1, h2, h3]

/-- Witness for C5: the amended theorem applied to the concrete store and
the all-rejecting provider. -/
theorem C5_validity_gated_restore_witness :
    restoreSession c5Provider c5Store =
      (if c5Provider.validateSession c5Session then (.ok (some c5Session), c5Store)
       else (.ok none, removeItem c5Store sessionKey)) :=
  C5_validity_gated_restore c5Provider c5Store "-|+abc|-|5|7" c5Session rfl
    (by decide) (by decide)

/-- Provider used in the getAccessToken scenarios; validateSession
rejects everything, standing for a session whose expiry has elapsed. -/
def c8Provider : Provider where
  getOrigin := none
  buildAuthorizeUrl := "https://auth.example/authorize"
  extractError := fun _ => none
  extractSession := fun _ =>
    { code := none, accessToken := none, refreshToken := none, expiresIn := 0, createdAt := 0 }
  validateSession := fun _ => false
  getAccessToken := fun s _ => s.accessToken.getD ""
  getSignOutUrl := fun u => u

/-- Store whose session slot holds unparseable text, for getAccessToken. -/
def c8CorruptStore : Store := setItem emptyStore sessionKey "garbage"

/-- Session used in the getAccessToken scenarios. -/
def c8Session : Session :=
  { code := none, accessToken := some "abc", refreshToken := none,
    expiresIn := 5, createdAt := 7 }

/-- Store whose session slot holds the serialization of c8Session. -/
def c8GoodStore : Store := setItem emptyStore sessionKey "-|+abc|-|5|7"

/-- C8 counterexample: a present but unparseable session value makes
getAccessToken raise an error even though a value is cached under the
session key and is non-empty — and that error is not the no-session
error — so erroring is not equivalent to the slot being absent or
empty. -/
theorem C8_counterexample :
    getAccessToken c8Provider "rid" c8CorruptStore = .error .jsonParse ∧
    c8CorruptStore sessionKey = some "garbage" ∧ ("garbage" : String) ≠ "" ∧
    ∀ rid, (Except.error JsError.jsonParse : Except JsError String) ≠
      .error (.noSession rid) :=
  ⟨rfl, rfl, by decide, by simp⟩

/-- C8 (amended): getAccessToken raises the distinct no-session error
exactly when the stored value under the session key is absent or empty;
a present but unparseable value instead propagates the JSON parse error;
and a cached value that deserializes yields the Provider-derived token
without erroring. -/
theorem C8_no_session_error_characterized :
    ∀ (provider : Provider) (resourceId : String) (st : Store),
      ((∃ rid, getAccessToken provider resourceId st = .error (.noSession rid)) ↔
        (st sessionKey = none ∨ st sessionKey = some "")) ∧
      (∀ s sess, st sessionKey = some s → s ≠ "" → parseSession s = some sess →
        getAccessToken provider resourceId st =
          .ok (provider.getAccessToken sess resourceId)) := by
  intro provider resourceId st
  constructor
  · rcases h : st sessionKey with _ | s
    · simp [getAccessToken, h]
    · by_cases he : s = ""
      · subst he
        simp [getAccessToken, h]
      · rcases hp : parseSession s with _ | sess <;>
          simp [getAccessToken, h, he, hp]
  · intro s sess h1 h2 h3
    simp [getAccessToken, h1, h2, h3]

/-- Witness for C8: the deserializable-cache conjunct applied to the
concrete good store. -/
theorem C8_no_session_error_characterized_witness :
    getAccessToken c8Provider "rid" c8GoodStore =
      .ok (c8Provider.getAccessToken c8Session "rid") :=
  (C8_no_session_error_characterized c8Provider "rid" c8GoodStore).2
    "-|+abc|-|5|7" c8Session rfl (by decide) (by decide)

/-- Provider for the C9 scenario: validateSession rejects everything,
modelling a session whose createdAt plus expiresIn has elapsed. -/
def c9Provider : Provider where
  getOrigin := none
  buildAuthorizeUrl := "https://auth.example/authorize"
  extractError := fun _ => none
  extractSession := fun _ =>
    { code := none, accessToken := none, refreshToken := none, expiresIn := 0, createdAt := 0 }
  validateSession := fun _ => false
  getAccessToken := fun s _ => s.accessToken.getD ""
  getSignOutUrl := fun u => u

/-- Session for the C9 scenario. -/
def c9Session : Session :=
  { code := none, accessToken := some "abc", refreshToken := none,
    expiresIn := 5, createdAt := 7 }

/-- Store for the C9 scenario. -/
def c9Store : Store := setItem emptyStore sessionKey "-|+abc|-|5|7"

/-- C9: getAccessToken never consults Provider.validateSession — every
cached session that deserializes yields the Provider-derived token, and
replacing validateSession by any function at all leaves the result
unchanged, so an expired-but-cached session still yields a token. -/
theorem C9_expired_session_still_yields_token :
    ∀ (provider : Provider) (resourceId : String) (st : Store)
      (s : String) (sess : Session),
      st sessionKey = some s → s ≠ "" → parseSession s = some sess →
      getAccessToken provider resourceId st =
        .ok (provider.getAccessToken sess resourceId) ∧
      ∀ (v : Session → Bool),
        getAccessToken { provider with validateSession := v } resourceId st =
          getAccessToken provider resourceId st := by
  intro provider resourceId st s sess h1 h2 h3
  constructor
  · simp [getAccessToken, h1, h2, h3]
  · intro v
    rfl

/-- Witness for C9: the theorem applied to the concrete store holding a
session rejected by the provider's validateSession. -/
theorem C9_expired_session_still_yields_token_witness :
    getAccessToken c9Provider "rid" c9Store =
      .ok (c9Provider.getAccessToken c9Session "rid") :=
  (C9_expired_session_still_yields_token c9Provider "rid" c9Store
    "-|+abc|-|5|7" c9Session rfl (by decide) (by decide)).1

/-- The message event of the C1 counterexample: a well-formed source
window named with this attempt's key, arriving from an origin the
Provider did not declare. -/
def c1Event : MessageEvent :=
  { origin := "https://attacker.example",
    source := some { isSelf := true, name := "k1" }, data := "payload" }

/-- C1 counterexample: with a declared origin that is the empty string,
the origin guard is skipped (JavaScript truthiness of the empty string),
so a message from a non-matching origin is still relayed even though the
Provider neither declared no origin nor declared the message's origin. -/
theorem C1_counterexample :
    messageCallback (some "") "k1" false c1Event =
      .relay "payload" "https://attacker.example" ∧
    ¬((some "" : Option String) = none ∨ c1Event.origin = "") := by decide

/-- C1 (amended): the callback relays — stores the payload, acknowledges
to the event's origin, detaches — exactly when every guard passes, where
the origin guard also passes when the declared origin is the empty string
(it is falsy, so the source skips the comparison): the Provider declared
no origin, or the empty origin, or the message's origin; the message has
a source window that is its own self and whose name equals this attempt's
key; and the popup is not yet closed.  A message whose source window name
differs from this attempt's key is always silently dropped with the
listener kept, so it is never relayed into this attempt. -/
theorem C1_guard_chain_with_falsy_origin :
    ∀ (origin : Option String) (requestKey : String) (popupClosed : Bool)
      (event : MessageEvent),
      (messageCallback origin requestKey popupClosed event =
          .relay event.data event.origin ↔
        ((origin = none ∨ origin = some "" ∨ origin = some event.origin) ∧
         (∃ src, event.source = some src ∧ src.isSelf = true ∧
            src.name = requestKey) ∧
         popupClosed = false)) ∧
      (∀ src, event.source = some src → src.name ≠ requestKey →
        messageCallback origin requestKey popupClosed event = .drop) := by
  intro origin key closed event
  obtain ⟨eo, srcOpt, d⟩ := event
  refine ⟨?_, ?_⟩
  · simp only [messageCallback, originMismatch]
    rcases origin with _ | o
    · rcases srcOpt with _ | ⟨self, nm⟩
      · simp
      · cases self <;> cases closed <;> by_cases hn : nm = key <;> simp_all
    · by_cases ho : o = ""
      · subst ho
        rcases srcOpt with _ | ⟨self, nm⟩
        · simp
        · cases self <;> cases closed <;> by_cases hn : nm = key <;> simp_all
      · by_cases heo : eo = o
        · subst heo
          rcases srcOpt with _ | ⟨self, nm⟩
          · simp [ho]
          · cases self <;> cases closed <;> by_cases hn : nm = key <;> simp_all
        · rcases srcOpt with _ | ⟨self, nm⟩
          · simp [ho, heo]
          · cases self <;> cases closed <;> by_cases hn : nm = key <;>
              (simp_all; try exact fun h => heo h.symm)
  · intro src hs hn
    simp only at hs
    subst hs
    obtain ⟨self, nm⟩ := src
    simp only [messageCallback, originMismatch]
    split
    · rfl
    · simp only at hn
      cases self <;> simp [hn]

/-- A message addressed to another attempt's key, used as the witness
input for C1. -/
def c1OtherEvent : MessageEvent :=
  { origin := "o", source := some { isSelf := true, name := "kA" },
    data := "payload" }

/-- Witness for C1: the cross-talk conjunct applied concretely — a
message whose source window is named with key kA is dropped by the
attempt whose key is kB. -/
theorem C1_guard_chain_with_falsy_origin_witness :
    messageCallback none "kB" false c1OtherEvent = .drop :=
  (C1_guard_chain_with_falsy_origin none "kB" false c1OtherEvent).2
    { isSelf := true, name := "kA" } rfl (by decide)

/-- With the popup closed, the callback never relays: every message is
either dropped or dropped-with-detach (the closed guard precedes the
relay branch). -/
theorem messageCallback_closed_no_relay :
    ∀ (o : Option String) (k : String) (e : MessageEvent),
      messageCallback o k true e = .drop ∨
      messageCallback o k true e = .dropDetach := by
  intro o k e
  obtain ⟨eo, srcOpt, d⟩ := e
  simp only [messageCallback]
  split
  · exact Or.inl rfl
  · rcases srcOpt with _ | ⟨self, nm⟩
    · exact Or.inl rfl
    · cases self <;> by_cases hn : nm = k <;> simp [hn]

/-- Once an attempt has settled and its correlation slot is empty, a
trace of events whose closed flag is true keeps the outcome and keeps
the slot empty: later ticks are no-ops and later messages cannot relay
past the closed guard. -/
theorem closedRun_preserves :
    ∀ (P : Provider) (name key : String) (events : List Ev),
      ∀ (rs : RunState) (oc : Outcome),
      rs.outcome = some oc → rs.store key = none →
      (∀ e ∈ events, evClosed e = true) →
      (runEvents P name key events rs).outcome = some oc ∧
      (runEvents P name key events rs).store key = none := by
  intro P name key events
  induction events with
  | nil => intro rs oc h1 h2 _; exact ⟨h1, h2⟩
  | cons ev rest ih =>
    intro rs oc h1 h2 h3
    have hev : evClosed ev = true := h3 ev (List.mem_cons_self ev rest)
    have hrest : ∀ e ∈ rest, evClosed e = true :=
      fun e he => h3 e (List.mem_cons_of_mem _ he)
    have hstep : (stepEv P name key rs ev).outcome = some oc ∧
        (stepEv P name key rs ev).store key = none := by
      cases ev with
      | msg e c =>
        simp only [evClosed] at hev
        subst hev
        by_cases hl : rs.listener
        · rcases messageCallback_closed_no_relay P.getOrigin key e with h | h <;>
            simp [stepEv, hl, h, h1, h2]
        · simp [stepEv, hl, h1, h2]
      | tick c =>
        simp [stepEv, h1, h2]
    have hcons : runEvents P name key (ev :: rest) rs =
        runEvents P name key rest (stepEv P name key rs ev) := rfl
    rw [hcons]
    exact ih (stepEv P name key rs ev) oc hstep.1 hstep.2 hrest

/-- C6: when the popup is observed closed while the attempt is pending
and no payload was ever relayed (the correlation slot is absent or
empty), the attempt rejects with the closed-incomplete error carrying
the product name, and the correlation slot is absent afterward — and
stays absent through any further events of the now-closed popup. -/
theorem C6_closed_without_payload_rejects :
    ∀ (P : Provider) (name key : String) (rs : RunState) (suffix : List Ev),
      rs.outcome = none →
      (rs.store key = none ∨ rs.store key = some "") →
      (∀ e ∈ suffix, evClosed e = true) →
      (runEvents P name key (Ev.tick true :: suffix) rs).outcome =
        some (.rejectedClosedIncomplete name) ∧
      (runEvents P name key (Ev.tick true :: suffix) rs).store key = none := by
  intro P name key rs suffix h1 h2 h3
  have hstep : (stepEv P name key rs (.tick true)).outcome =
      some (.rejectedClosedIncomplete name) ∧
      (stepEv P name key rs (.tick true)).store key = none := by
    rcases h2 with h | h <;> simp [stepEv, h1, onClosed, h, removeItem]
  have hcons : runEvents P name key (Ev.tick true :: suffix) rs =
      runEvents P name key suffix (stepEv P name key rs (.tick true)) := rfl
  rw [hcons]
  exact closedRun_preserves P name key suffix _ _ hstep.1 hstep.2 h3

/-- Provider for the C6 cancel scenario. -/
def c6Provider : Provider where
  getOrigin := none
  buildAuthorizeUrl := "https://auth.example/authorize"
  extractError := fun _ => none
  extractSession := fun _ =>
    { code := none, accessToken := none, refreshToken := none, expiresIn := 0, createdAt := 0 }
  validateSession := fun _ => true
  getAccessToken := fun _ _ => ""
  getSignOutUrl := fun u => u

/-- A stray message arriving after the popup closed. -/
def c6Event : MessageEvent := { origin := "o", source := none, data := "x" }

/-- Witness for C6: a concrete attempt whose popup closes before any
message is relayed rejects as closed-incomplete with an absent slot. -/
theorem C6_closed_without_payload_rejects_witness :
    (runEvents c6Provider "prod" (requestKeyOf "g")
        [Ev.tick true, Ev.msg c6Event true, Ev.tick true]
        { store := emptyStore, listener := true, outcome := none }).outcome =
      some (.rejectedClosedIncomplete "prod") ∧
    (runEvents c6Provider "prod" (requestKeyOf "g")
        [Ev.tick true, Ev.msg c6Event true, Ev.tick true]
        { store := emptyStore, listener := true, outcome := none }).store
      (requestKeyOf "g") = none :=
  C6_closed_without_payload_rejects c6Provider "prod" (requestKeyOf "g")
    { store := emptyStore, listener := true, outcome := none }
    [Ev.msg c6Event true, Ev.tick true] rfl (Or.inl rfl) (by decide)

/-- C7: on the success path — popup closed, a non-empty payload in the
correlation slot, no Provider-extracted error — the attempt resolves
with exactly the session the Provider extracted from the payload, and
what is persisted under the fixed session key is the serialization of
that same session: the createdAt carried by the stored and resolved
session is the one assigned when extractSession produced it, with no
later modification before persistence or resolution. -/
theorem C7_session_persisted_as_extracted :
    ∀ (P : Provider) (name key : String) (rs : RunState) (payload : String),
      rs.outcome = none → rs.store key = some payload → payload ≠ "" →
      P.extractError payload = none →
      (stepEv P name key rs (.tick true)).outcome =
        some (.resolved (P.extractSession payload)) ∧
      (stepEv P name key rs (.tick true)).store sessionKey =
        some (serializeSession (P.extractSession payload)) := by
  intro P name key rs payload h1 h2 h3 h4
  simp [stepEv, h1, onClosed, h2, h3, h4, setItem]

/-- The session the C7 witness provider extracts from any payload. -/
def c7Session : Session :=
  { code := some "c", accessToken := some "abc", refreshToken := none,
    expiresIn := 5, createdAt := 7 }

/-- Provider for the C7 success scenario. -/
def c7Provider : Provider where
  getOrigin := none
  buildAuthorizeUrl := "https://auth.example/authorize"
  extractError := fun _ => none
  extractSession := fun _ => c7Session
  validateSession := fun _ => true
  getAccessToken := fun _ _ => ""
  getSignOutUrl := fun u => u

/-- Attempt state just before the popup closure is observed in the C7
witness: the relayed redirect url sits in the correlation slot. -/
def c7State : RunState :=
  { store := setItem emptyStore (requestKeyOf "g") "https://redirect.example/done",
    listener := false, outcome := none }

/-- Witness for C7: the success-path theorem applied to the concrete
relayed state. -/
theorem C7_session_persisted_as_extracted_witness :
    (stepEv c7Provider "prod" (requestKeyOf "g") c7State (.tick true)).outcome =
      some (.resolved (c7Provider.extractSession "https://redirect.example/done")) ∧
    (stepEv c7Provider "prod" (requestKeyOf "g") c7State (.tick true)).store
        sessionKey =
      some (serializeSession
        (c7Provider.extractSession "https://redirect.example/done")) :=
  C7_session_persisted_as_extracted c7Provider "prod" (requestKeyOf "g") c7State
    "https://redirect.example/done" rfl (by decide) (by decide) rfl

/-- A correlation key never collides with the fixed session key: the
generated key carries a thirty-character prefix, while the session key
is seven characters long. -/
theorem requestKeyOf_ne_sessionKey : ∀ g, requestKeyOf g ≠ sessionKey := by
  intro g h
  have hl := congrArg String.length h
  rw [requestKeyOf, sessionKey, String.length_append] at hl
  have h1 : ("react-simple-auth-request-key-" : String).length = 30 := rfl
  have h2 : ("session" : String).length = 7 := rfl
  omega

/-- The closed-popup branch only ever reads the correlation slot, so two
stores that agree there and everywhere off the session key produce the
same outcome and stay in agreement off the session key. -/
theorem onClosed_congr :
    ∀ (P : Provider) (name key : String) (st1 st2 : Store),
      st1 key = st2 key →
      (∀ k, k ≠ sessionKey → st1 k = st2 k) →
      (onClosed P name key st1).2 = (onClosed P name key st2).2 ∧
      (∀ k, k ≠ sessionKey →
        (onClosed P name key st1).1 k = (onClosed P name key st2).1 k) := by
  intro P name key st1 st2 hk hs
  have hrem : ∀ k, k ≠ sessionKey →
      removeItem st1 key k = removeItem st2 key k := by
    intro k hks
    by_cases hkk : k = key
    · simp [removeItem, hkk]
    · simp [removeItem, hkk, hs k hks]
  have hset : ∀ v k, k ≠ sessionKey →
      setItem (removeItem st1 key) sessionKey v k =
        setItem (removeItem st2 key) sessionKey v k := by
    intro v k hks
    simp only [setItem]
    rw [if_neg hks, if_neg hks]
    exact hrem k hks
  simp only [onClosed]
  rw [← hk]
  cases hc : st1 key with
  | none => exact ⟨rfl, hrem⟩
  | some r =>
    by_cases hr : r = ""
    · simp only [if_pos hr]
      exact ⟨by trivial, hrem⟩
    · simp only [if_neg hr]
      cases he : P.extractError r with
      | none => exact ⟨rfl, hset _⟩
      | some e => exact ⟨rfl, hrem⟩

/-- One step of an attempt preserves agreement of two runs started from
stores that agree off the session key: the listener state, the outcome
and the off-session-key part of storage evolve identically. -/
theorem stepEv_congr :
    ∀ (P : Provider) (name key : String) (ev : Ev) (rs1 rs2 : RunState),
      key ≠ sessionKey →
      rs1.listener = rs2.listener → rs1.outcome = rs2.outcome →
      (∀ k, k ≠ sessionKey → rs1.store k = rs2.store k) →
      (stepEv P name key rs1 ev).listener = (stepEv P name key rs2 ev).listener ∧
      (stepEv P name key rs1 ev).outcome = (stepEv P name key rs2 ev).outcome ∧
      (∀ k, k ≠ sessionKey →
        (stepEv P name key rs1 ev).store k = (stepEv P name key rs2 ev).store k) := by
  intro P name key ev rs1 rs2 hkey hl ho hs
  cases ev with
  | msg e c =>
    simp only [stepEv]
    rw [← hl]
    cases hL : rs1.listener with
    | false => exact ⟨hl, ho, hs⟩
    | true =>
      cases hcb : messageCallback P.getOrigin key c e with
      | drop => exact ⟨hl, ho, hs⟩
      | dropDetach => exact ⟨rfl, ho, hs⟩
      | relay payload ack =>
        refine ⟨rfl, ho, ?_⟩
        intro k hks
        by_cases hkk : k = key
        · simp [setItem, hkk]
        · simp [setItem, hkk, hs k hks]
  | tick c =>
    simp only [stepEv]
    rw [← ho]
    cases hO : rs1.outcome with
    | some oc => exact ⟨hl, ho, hs⟩
    | none =>
      cases c with
      | false => exact ⟨hl, ho, hs⟩
      | true =>
        have hc := onClosed_congr P name key rs1.store rs2.store
          (hs key hkey) hs
        refine ⟨hl, ?_, hc.2⟩
        simp [hc.1]

/-- Whole-trace version of stepEv_congr. -/
theorem runEvents_congr :
    ∀ (P : Provider) (name key : String) (events : List Ev),
      key ≠ sessionKey →
      ∀ (rs1 rs2 : RunState),
      rs1.listener = rs2.listener → rs1.outcome = rs2.outcome →
      (∀ k, k ≠ sessionKey → rs1.store k = rs2.store k) →
      (runEvents P name key events rs1).outcome =
        (runEvents P name key events rs2).outcome := by
  intro P name key events hkey
  induction events with
  | nil => intro rs1 rs2 _ ho _; exact ho
  | cons ev rest ih =>
    intro rs1 rs2 hl ho hs
    have h := stepEv_congr P name key ev rs1 rs2 hkey hl ho hs
    exact ih (stepEv P name key rs1 ev) (stepEv P name key rs2 ev)
      h.1 h.2.1 h.2.2

/-- The session the C2 providers extract from the popup payload. -/
def c2Fresh : Session :=
  { code := none, accessToken := some "fresh", refreshToken := none,
    expiresIn := 9, createdAt := 1 }

/-- The session cached in storage before the C2 attempt starts. -/
def c2Cached : Session :=
  { code := none, accessToken := some "abc", refreshToken := none,
    expiresIn := 5, createdAt := 7 }

/-- Provider for the C2 scenario; validateSession accepts everything, so
the cached session counts as valid. -/
def c2Provider : Provider where
  getOrigin := none
  buildAuthorizeUrl := "https://auth.example/authorize"
  extractError := fun _ => none
  extractSession := fun _ => c2Fresh
  validateSession := fun _ => true
  getAccessToken := fun _ _ => ""
  getSignOutUrl := fun u => u

/-- Store already holding the serialization of the valid cached session. -/
def c2Store : Store := setItem emptyStore sessionKey "-|+abc|-|5|7"

/-- Popup trace for the C2 scenario: the popup posts a valid payload and
is then observed closed. -/
def c2Events : List Ev :=
  [.msg { origin := "o", source := some { isSelf := true, name := requestKeyOf "g" },
          data := "https://redirect.example/done" } false,
   .tick true]

/-- C2 counterexample: with a valid cached session already in storage,
acquireTokenAsync still runs the interactive popup flow and resolves
with the freshly extracted session — a different session from the cached
one, and an outcome carrying no renewed flag at all — rather than
resolving immediately from the cache without a popup. -/
theorem C2_counterexample :
    parseSession "-|+abc|-|5|7" = some c2Cached ∧
    c2Provider.validateSession c2Cached = true ∧
    c2Store sessionKey = some "-|+abc|-|5|7" ∧
    (runAttempt c2Provider "prod" (requestKeyOf "g") true c2Events
      c2Store).outcome = some (.resolved c2Fresh) ∧
    c2Fresh ≠ c2Cached := by decide

/-- C2 (amended): acquireTokenAsync has no cached-session fast path and
no renewed flag — it never reads the fixed session slot before or during
the flow, so the outcome of an attempt is identical for any two initial
stores that agree outside the session key, whatever session is cached;
the popup flow alone determines the result. -/
theorem C2_cache_ignored :
    ∀ (P : Provider) (name g : String) (opens : Bool) (events : List Ev)
      (st1 st2 : Store),
      (∀ k, k ≠ sessionKey → st1 k = st2 k) →
      (runAttempt P name (requestKeyOf g) opens events st1).outcome =
        (runAttempt P name (requestKeyOf g) opens events st2).outcome := by
  intro P name g opens events st1 st2 hs
  cases opens
  · rfl
  · simp only [runAttempt, if_pos rfl]
    exact runEvents_congr P name (requestKeyOf g) events
      (requestKeyOf_ne_sessionKey g)
      { store := st1, listener := true, outcome := none }
      { store := st2, listener := true, outcome := none }
      rfl rfl hs

/-- Witness for C2: the amended theorem applied concretely — an attempt
started with a valid cached session in storage has the same outcome as
the same attempt started with empty storage. -/
theorem C2_cache_ignored_witness :
    (runAttempt c2Provider "prod" (requestKeyOf "g") true c2Events
      c2Store).outcome =
    (runAttempt c2Provider "prod" (requestKeyOf "g") true c2Events
      emptyStore).outcome :=
  C2_cache_ignored c2Provider "prod" "g" true c2Events c2Store emptyStore
    (by intro k hk; simp [c2Store, setItem, emptyStore, hk])
